import Mathlib

/-!
Verification of the revenue-chatbot dashboard (src/app.py, src/load_data.py)
against its natural-language specification.

Shallow embedding conventions:
* The single table sales_pipeline is a `List Row`; SQL NULL is `Option`.
* Dates are abstract day numbers (`ℤ`, standing for Julian day numbers);
  SQLite JULIANDAY subtraction becomes integer subtraction.
* SQL numeric values are modelled with `ℚ` (exact; float rounding ignored),
  and float literals from the source (1.3, 0.8, 1.5, ...) become the exact
  rationals 13/10, 8/10, 3/2, ....
* SQL aggregates ignore NULL inputs and return NULL on empty input
  (`sqlSum`, `sqlAvg`, `sqlMinZ`, ...); division by zero in SQLite yields
  NULL, which is modelled explicitly at each use site.
* Python function behaviour is modelled as written in app.py; places where
  Python would raise (formatting / int() applied to None, i.e. a SQL NULL
  reaching an f-string) are modelled with `Except String`.
* Python digit-grouping format specs ("{:,}") are rendered without the
  thousands separators; this only affects cosmetic text, never a number.
* GROUP BY produces groups in first-appearance order and ORDER BY is a
  stable insertion sort (SQLite leaves the order of ties unspecified; all
  concrete datasets used in theorems below have distinct sort keys or are
  insensitive to tie order).
-/

set_option maxRecDepth 10000
set_option maxHeartbeats 1000000

/- Batteries marks the rational-number operations irreducible, which stops
`decide` from evaluating the embedded computations on concrete datasets;
they are semireducible for this development. -/
attribute [local semireducible] Rat.add Rat.mul Rat.inv Rat.sub

/-! ## Generic helpers: SQL-style aggregates, Python coercions, strings -/

/-- SQL MAX combine step on nullable integers (NULL is ignored). -/
def optMaxZ : Option ℤ → Option ℤ → Option ℤ
  | none, b => b
  | some a, none => some a
  | some a, some b => some (max a b)

/-- SQL MIN combine step on nullable integers (NULL is ignored). -/
def optMinZ : Option ℤ → Option ℤ → Option ℤ
  | none, b => b
  | some a, none => some a
  | some a, some b => some (min a b)

/-- SQL MAX aggregate over nullable integers: NULL on empty/all-NULL input. -/
def sqlMaxZ (xs : List (Option ℤ)) : Option ℤ := xs.foldr optMaxZ none

/-- SQL MIN aggregate over nullable integers: NULL on empty/all-NULL input. -/
def sqlMinZ (xs : List (Option ℤ)) : Option ℤ := xs.foldr optMinZ none

/-- SQL SUM aggregate over nullable rationals: ignores NULLs, NULL on empty. -/
def sqlSum (xs : List (Option ℚ)) : Option ℚ :=
  xs.foldr
    (fun x acc =>
      match x, acc with
      | none, acc => acc
      | some v, none => some v
      | some v, some s => some (v + s))
    none

/-- SQL AVG aggregate over nullable rationals: ignores NULLs, NULL on empty. -/
def sqlAvg (xs : List (Option ℚ)) : Option ℚ :=
  let vs := xs.filterMap id
  if vs.length = 0 then none else some (vs.sum / vs.length)

/-- SQL MAX aggregate over nullable rationals. -/
def sqlMaxQ (xs : List (Option ℚ)) : Option ℚ :=
  xs.foldr
    (fun x acc =>
      match x, acc with
      | none, acc => acc
      | some v, none => some v
      | some v, some s => some (max v s))
    none

/-- SQL MIN aggregate over nullable rationals. -/
def sqlMinQ (xs : List (Option ℚ)) : Option ℚ :=
  xs.foldr
    (fun x acc =>
      match x, acc with
      | none, acc => acc
      | some v, none => some v
      | some v, some s => some (min v s))
    none

/-- Python int() applied to a number: truncation toward zero. -/
def pyInt (q : ℚ) : ℤ := if q < 0 then -(Int.floor (-q)) else Int.floor q

/-- Python round(x, 1): one decimal place (half-to-even at exact midpoints is
approximated by Mathlib round; no claim depends on midpoint behaviour). -/
def pyRound1 (q : ℚ) : ℚ := ((round (10 * q) : ℤ) : ℚ) / 10

/-- Python f-string "{x:.1f}" rendering of a nonnegative rational. -/
def fmtF1 (q : ℚ) : String :=
  let n : ℤ := round (10 * q)
  toString (n / 10) ++ (".") ++ toString (n % 10)

/-- Python "{:.0f}" rendering. -/
def fmtF0 (q : ℚ) : String := toString (round q : ℤ)

/-- Does the character list start with the given needle? -/
def startsWithL : List Char → List Char → Bool
  | [], _ => true
  | _ :: _, [] => false
  | a :: as, b :: bs => a == b && startsWithL as bs

/-- Does the character list contain the needle as a contiguous sublist? -/
def containsL (needle : List Char) : List Char → Bool
  | [] => needle.isEmpty
  | c :: rest => startsWithL needle (c :: rest) || containsL needle rest

/-- Python "needle in hay" on strings. -/
def containsSub (hay needle : String) : Bool := containsL needle.data hay.data

/-- Python str.lower(). -/
def lowerStr (s : String) : String := String.mk (s.data.map Char.toLower)

/-- Deduplication keeping first occurrences (models GROUP BY key collection,
groups listed in first-appearance order). -/
def dedupAux {α : Type} [BEq α] : List α → List α → List α
  | _, [] => []
  | seen, a :: rest =>
    if seen.contains a then dedupAux seen rest else a :: dedupAux (a :: seen) rest

/-- Deduplicate a list keeping first occurrences. -/
def dedup {α : Type} [BEq α] (l : List α) : List α := dedupAux [] l

/-- Stable insert for descending sort: a goes after every x unless x is
strictly below a. -/
def insertDescByLt {α : Type} (ltB : α → α → Bool) (a : α) : List α → List α
  | [] => [a]
  | x :: xs => if ltB x a then a :: x :: xs else x :: insertDescByLt ltB a xs

/-- Stable descending sort (models ORDER BY ... DESC). -/
def sortDescByLt {α : Type} (ltB : α → α → Bool) (l : List α) : List α :=
  l.foldl (fun acc a => insertDescByLt ltB a acc) []

/-- Stable insert for ascending sort. -/
def insertAscByLt {α : Type} (ltB : α → α → Bool) (a : α) : List α → List α
  | [] => [a]
  | x :: xs => if ltB a x then a :: x :: xs else x :: insertAscByLt ltB a xs

/-- Stable ascending sort (models ORDER BY ... ASC, SQLite NULLs first). -/
def sortAscByLt {α : Type} (ltB : α → α → Bool) (l : List α) : List α :=
  l.foldl (fun acc a => insertAscByLt ltB a acc) []

/-- SQL comparison order on nullable integers with NULL below every value
(SQLite sorts NULLs first ascending / last descending). -/
def optLtZ : Option ℤ → Option ℤ → Bool
  | none, some _ => true
  | some x, some y => decide (x < y)
  | _, none => false

/-- SQL comparison order on nullable rationals with NULL below every value. -/
def optLtQ : Option ℚ → Option ℚ → Bool
  | none, some _ => true
  | some x, some y => decide (x < y)
  | _, none => false

/-! ## Data model: the sales_pipeline table -/

/-- One row of the sales_pipeline table (schema from load_data.py; the app
stores stages as the strings Engaging / Won / Lost). -/
structure Row where
  opportunity_id : String
  sales_agent : String
  product : String
  account : Option String
  deal_stage : String
  engage_date : Option ℤ
  close_date : Option ℤ
  close_value : Option ℚ
deriving DecidableEq

/-- Rows with deal_stage = Won. -/
def wonRows (db : List Row) : List Row := db.filter (fun r => r.deal_stage == "Won")

/-- Rows with deal_stage IN (Won, Lost). -/
def closedRows (db : List Row) : List Row :=
  db.filter (fun r => r.deal_stage == "Won" || r.deal_stage == "Lost")

/-- COUNT(*) of Engaging rows. -/
def openDealCount (db : List Row) : ℕ :=
  (db.filter (fun r => r.deal_stage == "Engaging")).length

/-- All rows of one sales agent. -/
def agentRows (db : List Row) (a : String) : List Row :=
  db.filter (fun r => r.sales_agent == a)

/-- Fallback reference date, the day number of 2017-12-31, used by app.py
whenever MAX(close_date) is NULL. -/
def fallbackRefDate : ℤ := 2458118

/-- MAX(close_date) over the table (SQL MAX ignores NULL; NULL if none). -/
def maxCloseDate (db : List Row) : Option ℤ :=
  db.foldr (fun r acc => optMaxZ r.close_date acc) none

/-- app.py reference date: MAX(close_date), falling back to 2017-12-31. -/
def referenceDate (db : List Row) : ℤ := (maxCloseDate db).getD fallbackRefDate

/-! ## Metric calculators (get_executive_metrics, app.py lines 87-194) -/

/-- Total revenue metric (qtd_revenue): int(SUM(close_value) or 0) over
Won rows with a close date (lines 92-103). -/
def qtdRevenue (db : List Row) : ℤ :=
  pyInt ((sqlSum ((db.filter
    (fun r => r.deal_stage == "Won" && r.close_date != none)).map
      (fun r => r.close_value))).getD 0)

/-- SQL win-rate expression SUM(CASE WHEN Won THEN 1 ELSE 0)*100.0/COUNT(*)
over closed rows (lines 128-133); NULL when there are no closed rows
(SQLite division by a zero count yields NULL). -/
def sqlWinRate (db : List Row) : Option ℚ :=
  let c := closedRows db
  if c.length = 0 then none
  else some ((((c.filter (fun r => r.deal_stage == "Won")).length : ℚ) * 100) / c.length)

/-- win_rate metric: round(rate or 0, 1) (line 136). -/
def winRateMetric (db : List Row) : ℚ := pyRound1 ((sqlWinRate db).getD 0)

/-- AVG(close_value) over Won rows with close_value > 0 (the avg_won_deal
CTE used in several queries). -/
def avgWonPosValue (db : List Row) : Option ℚ :=
  sqlAvg ((db.filter (fun r => r.deal_stage == "Won" &&
      (r.close_value.elim false (fun v => decide (0 < v))))).map
    (fun r => r.close_value))

/-- Estimated pipeline value: open-deal count times (avg won value or 0)
(lines 152-158). -/
def pipelineEstimatedValue (db : List Row) : ℚ :=
  (openDealCount db : ℚ) * ((avgWonPosValue db).getD 0)

/-- Monthly quota: qtd_revenue / 10 (line 161). -/
def monthlyQuota (db : List Row) : ℚ := ((qtdRevenue db : ℤ) : ℚ) / 10

/-- pipeline_health metric: round(coverage, 1) with coverage = estimated
value / monthly quota guarded to 0 on a nonpositive quota (lines 162-164). -/
def pipelineHealth (db : List Row) : ℚ :=
  let mq := monthlyQuota db
  pyRound1 (if 0 < mq then pipelineEstimatedValue db / mq else 0)

/-! ## Alert detector rules needed by the claims (detect_alerts) -/

/-- Won revenue, SUM(close_value), of one rep (the rep_revenue CTE of the
rep-concentration rule, lines 267-283). -/
def repRevenues (db : List Row) : List (Option ℚ) :=
  (dedup ((wonRows db).map (fun r => r.sales_agent))).map (fun a =>
    sqlSum (((wonRows db).filter (fun r => r.sales_agent == a)).map
      (fun r => r.close_value)))

/-- Alert 4, revenue concentration (lines 267-295): fires when fewer than
40 percent of reps are above the average rep revenue; with zero reps the
guarded percentage is 0, which is below 40, so the alert fires. -/
def repConcentrationFires (db : List Row) : Bool :=
  let revs := repRevenues db
  let totalReps := revs.length
  let avgRev := sqlAvg revs
  let aboveAvg := (revs.filter (fun rv =>
      match rv, avgRev with
      | some v, some a => decide (a < v)
      | _, _ => false)).length
  let pct : ℚ := if 0 < totalReps then (aboveAvg : ℚ) / totalReps * 100 else 0
  decide (pct < 40)

/-- Engaging rows stuck more than 90 days relative to the reference date
(the stuck-deal filter of alert 6 and of the churn investigation;
a NULL engage_date never satisfies the SQL comparison). -/
def stuckRows (db : List Row) : List Row :=
  let ref := referenceDate db
  db.filter (fun r => r.deal_stage == "Engaging" &&
    (r.engage_date.elim false (fun e => decide (90 < ref - e))))

/-- Alert 6, churn risk (lines 324-358): fires when stuck deals exist and
are more than half of the open pipeline.  The wall-clock argument is unused:
this rule takes its notion of now from the data (MAX(close_date)).  The
dollar value quoted in the alert message is not modelled. -/
def churnRiskFires (db : List Row) (_now : ℤ) : Bool :=
  let stuckCount := (stuckRows db).length
  let total := openDealCount db
  decide (0 < stuckCount) && decide (0 < total) &&
    decide ((1 : ℚ) / 2 < (stuckCount : ℚ) / (total : ℚ))

/-- One row of the new_rep_ramp query of alert 8 (lines 385-402). -/
structure RampRow where
  agent : String
  days : ℚ
  wins : ℕ
deriving DecidableEq

/-- Alert 8 query: per agent, first engage date, first win close date and
win count; keep agents with a first win whose first engagement is fewer
than 180 days before now - and now here is JULIANDAY('now'), true
wall-clock time, passed in as a parameter. -/
def newRepRamp (db : List Row) (now : ℤ) : List RampRow :=
  (dedup (db.map (fun r => r.sales_agent))).filterMap (fun a =>
    let rows := agentRows db a
    let firstEngage := sqlMinZ (rows.map (fun r => r.engage_date))
    let firstWin := sqlMinZ ((rows.filter (fun r => r.deal_stage == "Won")).map
      (fun r => r.close_date))
    let wins := (rows.filter (fun r => r.deal_stage == "Won")).length
    match firstWin, firstEngage with
    | some w, some e =>
      if now - e < 180 then some { agent := a, days := ((w - e : ℤ) : ℚ), wins := wins }
      else none
    | _, _ => none)

/-- Alert 8, slow ramp (lines 404-414): fires when some new rep took more
than 1.5 times the average days to a first win. -/
def slowRampFires (db : List Row) (now : ℤ) : Bool :=
  let ramp := newRepRamp db now
  if ramp.length = 0 then false
  else
    let avg := (ramp.map (fun r => r.days)).sum / (ramp.length : ℚ)
    decide (0 < (ramp.filter (fun r => decide (avg * (3 / 2) < r.days))).length)

/-- Won rows closed in the last 90 days before now - date('now','-90 days')
is true wall-clock time, passed in as a parameter (line 427). -/
def recentWonRows (db : List Row) (now : ℤ) : List Row :=
  db.filter (fun r => r.deal_stage == "Won" &&
    (r.close_date.elim false (fun d => decide (now - 90 ≤ d))))

/-- Alert 9 discount-rate expression (lines 417-428): share of recent won
deals priced below 0.8 times the all-time average won value; the NULLIF
guard makes it NULL when there are no recent won deals. -/
def discountRateSql (db : List Row) (now : ℤ) : Option ℚ :=
  let avgVal := sqlAvg ((wonRows db).map (fun r => r.close_value))
  let recent := recentWonRows db now
  let discounted := (recent.filter (fun r =>
      match r.close_value, avgVal with
      | some v, some a => decide (v < a * (8 / 10))
      | _, _ => false)).length
  if recent.length = 0 then none
  else some (((discounted : ℚ) * 100) / (recent.length : ℚ))

/-- Alert 9, discount frequency (lines 430-438): fires when the rate is
non-NULL and above 30. -/
def discountFires (db : List Row) (now : ℤ) : Bool :=
  match discountRateSql db now with
  | none => false
  | some rate => decide (30 < rate)

/-! ## Investigator (investigate_alert, app.py lines 473-982)

Only the churn_risk and territory_imbalance branches are embedded in full
(they carry the binary root-cause decisions of the claims); the remaining
branches are not needed by any claim theorem. -/

/-- The derived Investigation record returned by investigate_alert. -/
structure Investigation where
  root_cause : String
  findings : List String
  recommendation_prompt : String
deriving DecidableEq

/-- avg_stuck of the churn investigation (size_check query, lines 755-768):
AVG over stuck deals of COALESCE(close_value, avg positive won value),
with the Python falsy-guard collapsing NULL (and 0) to 0. -/
def avgStuckValue (db : List Row) : ℚ :=
  (sqlAvg ((stuckRows db).map (fun r =>
      match r.close_value with
      | some v => some v
      | none => avgWonPosValue db))).getD 0

/-- avg_won of the churn investigation (line 767-769): AVG(close_value)
over Won rows, NULL (or 0) collapsed to 0 by the Python falsy-guard. -/
def avgWonValue (db : List Row) : ℚ :=
  (sqlAvg ((wonRows db).map (fun r => r.close_value))).getD 0

/-- One row of the stuck_analysis query (lines 726-752). -/
structure StuckRep where
  agent : String
  cnt : ℕ
  avgDays : ℚ
  value : Option ℚ
deriving DecidableEq

/-- stuck_analysis: stuck deals grouped by agent with count, average days
stuck and value at risk (COALESCE to the average positive won value),
ordered by count descending, LIMIT 5. -/
def stuckAnalysis (db : List Row) : List StuckRep :=
  let ref := referenceDate db
  let stuck := stuckRows db
  let grouped := (dedup (stuck.map (fun r => r.sales_agent))).map (fun a =>
    let rows := stuck.filter (fun r => r.sales_agent == a)
    { agent := a
      cnt := rows.length
      avgDays := ((rows.map (fun r => ((ref - r.engage_date.getD 0 : ℤ) : ℚ))).sum) / (rows.length : ℚ)
      value := sqlSum (rows.map (fun r =>
        match r.close_value with
        | some v => some v
        | none => avgWonPosValue db)) : StuckRep })
  (sortDescByLt (fun a b => decide (a.cnt < b.cnt)) grouped).take 5

/-- The churn root-cause condition of app.py line 776:
avg_stuck > 0 and avg_won > 0 and avg_stuck > avg_won * 1.3. -/
def churnComplexityCond (db : List Row) : Bool :=
  decide (0 < avgStuckValue db) && decide (0 < avgWonValue db) &&
    decide (avgWonValue db * (13 / 10) < avgStuckValue db)

/-- The churn root-cause condition as the SPEC states it (refinement
reference, written from the spec words, not from the source): deal
complexity exactly when the stuck average exceeds 1.3 times the overall
average won-deal value. -/
def specChurnComplexity (db : List Row) : Bool :=
  decide (avgWonValue db * (13 / 10) < avgStuckValue db)

/-- Per-agent findings line of the churn investigation (line 774). -/
def churnAgentLine (s : StuckRep) : String :=
  s.agent ++ (": ") ++ toString s.cnt ++ (" deals stuck (avg ") ++
    toString (pyInt s.avgDays) ++ (" days, $") ++
    toString (pyInt (s.value.getD 0)) ++ (" at risk)")

/-- First deal-complexity findings line (line 777, formatted). -/
def churnComplexityLine1 (db : List Row) : String :=
  ("Root cause: Deal complexity - stuck deals are ") ++
    fmtF0 ((avgStuckValue db / avgWonValue db - 1) * 100) ++
    ("% larger than typical deals")

/-- Second deal-complexity findings line (line 778, literal). -/
def churnComplexityLine2 : String :=
  "Likely issue: Complex enterprise deals need better qualification or executive sponsorship"

/-- First pipeline-hygiene findings line (line 780, literal). -/
def churnHygieneLine1 : String :=
  "Root cause: Pipeline hygiene - stuck deals are normal size, indicating lack of follow-up"

/-- Second pipeline-hygiene findings line (line 781, literal). -/
def churnHygieneLine2 : String :=
  "Likely issue: Reps not actively managing pipeline or deals should be marked lost"

/-- The churn_risk branch of investigate_alert (lines 720-789). -/
def investigateChurn (db : List Row) : Investigation :=
  let sa := stuckAnalysis db
  let findings :=
    if sa.length = 0 then [("No stuck deals found in analysis period")]
    else (("Reps with most stuck deals:") :: sa.map churnAgentLine) ++
      (if churnComplexityCond db then [churnComplexityLine1 db, churnComplexityLine2]
       else [churnHygieneLine1, churnHygieneLine2])
  { root_cause := toString (sa.map (fun s => s.cnt)).sum ++ (" deals stuck >90 days")
    findings := findings
    recommendation_prompt :=
      "High churn risk from stale pipeline - implement pipeline hygiene process" }

/-- One row of the territory load_analysis query (lines 793-812). -/
structure RepLoad where
  sales_agent : String
  active_deals : ℕ
  total_revenue : ℚ
  win_rate : Option ℚ
deriving DecidableEq

/-- The rep_metrics CTE for one agent.  total_revenue models
SUM(CASE WHEN Won THEN close_value ELSE 0 END): the aggregate treats a NULL
close_value like 0; for every rep kept by the active_deals > 0 filter the
SQL sum is non-NULL because the Engaging row contributes the ELSE 0 term. -/
def repLoadOf (db : List Row) (a : String) : RepLoad :=
  let rows := agentRows db a
  let attempts := (rows.filter (fun r => r.deal_stage == "Won" || r.deal_stage == "Lost")).length
  let wonCnt := (rows.filter (fun r => r.deal_stage == "Won")).length
  { sales_agent := a
    active_deals := (rows.filter (fun r => r.deal_stage == "Engaging")).length
    total_revenue := (rows.map (fun r =>
      if r.deal_stage == "Won" then r.close_value.getD 0 else 0)).sum
    win_rate := if attempts = 0 then none else some (((wonCnt : ℚ) * 100) / (attempts : ℚ)) }

/-- load_analysis: reps with active deals, ordered by active_deals DESC. -/
def loadAnalysis (db : List Row) : List RepLoad :=
  sortDescByLt (fun a b => decide (a.active_deals < b.active_deals))
    (((dedup (db.map (fun r => r.sales_agent))).map (repLoadOf db)).filter
      (fun rl => decide (0 < rl.active_deals)))

/-- avg_revenue over all load_analysis reps (line 818, guarded to 0). -/
def territoryAvgRevenue (db : List Row) : ℚ :=
  let la := loadAnalysis db
  if la.length = 0 then 0
  else ((la.map (fun rl => rl.total_revenue)).sum) / (la.length : ℚ)

/-- high_load_high_performance counter (lines 820-827): among the FIRST 8
rows of load_analysis, reps with more than 50 active deals and revenue
strictly above the average. -/
def territoryHiCount (db : List Row) : ℕ :=
  (((loadAnalysis db).take 8).filter (fun rl =>
    decide (50 < rl.active_deals) &&
      decide (territoryAvgRevenue db < rl.total_revenue))).length

/-- high_load_low_performance counter: among the FIRST 8 rows of
load_analysis, high-load reps whose revenue is NOT above the average. -/
def territoryLoCount (db : List Row) : ℕ :=
  (((loadAnalysis db).take 8).filter (fun rl =>
    decide (50 < rl.active_deals) &&
      !(decide (territoryAvgRevenue db < rl.total_revenue)))).length

/-- The territory root-cause decision as the code makes it (line 830). -/
def codeTerritoryOverwhelm (db : List Row) : Bool :=
  decide (territoryHiCount db < territoryLoCount db)

/-- Count of high-load reps with revenue strictly BELOW average over the
WHOLE rep list (refinement reference, written from the spec words). -/
def specTerritoryBelowCount (db : List Row) : ℕ :=
  ((loadAnalysis db).filter (fun rl =>
    decide (50 < rl.active_deals) &&
      decide (rl.total_revenue < territoryAvgRevenue db))).length

/-- Count of high-load reps with revenue strictly ABOVE average over the
WHOLE rep list (refinement reference, written from the spec words). -/
def specTerritoryAboveCount (db : List Row) : ℕ :=
  ((loadAnalysis db).filter (fun rl =>
    decide (50 < rl.active_deals) &&
      decide (territoryAvgRevenue db < rl.total_revenue))).length

/-- The territory root-cause decision as the SPEC states it: capacity
overwhelm exactly when below-average high-load reps outnumber
above-average high-load reps. -/
def specTerritoryOverwhelm (db : List Row) : Bool :=
  decide (specTerritoryAboveCount db < specTerritoryBelowCount db)

/-- Python TypeError raised when an f-string format spec meets None. -/
def fmtNoneErr : String := "TypeError: unsupported format string passed to NoneType"

/-- Python TypeError raised when int() or arithmetic meets None. -/
def intNoneErr : String := "TypeError: int() argument is NoneType"

/-- Per-rep findings line of the territory investigation (line 821);
formatting a NULL win rate raises, handled at the caller. -/
def territoryRepLine (rl : RepLoad) (w : ℚ) : String :=
  rl.sales_agent ++ (": ") ++ toString rl.active_deals ++ (" active deals ($") ++
    toString (pyInt rl.total_revenue) ++ (" total revenue, ") ++ fmtF1 w ++
    ("% win rate)")

/-- Territory findings line appended in the capacity branch (line 831). -/
def territoryCapacityLine : String :=
  "Root cause: Capacity overwhelm - high-load reps are underperforming"

/-- Territory action line of the capacity branch (line 832). -/
def territoryActionLine1 : String := "Action needed: Redistribute territories immediately"

/-- Territory findings line appended in the cherry-picking branch (line 834). -/
def territoryCherryLine : String :=
  "Root cause: Cherry-picking - top performers hoarding opportunities"

/-- Territory action line of the cherry-picking branch (line 835). -/
def territoryActionLine2 : String := "Action needed: Implement fair lead distribution rules"

/-- The per-rep findings lines of the territory investigation: the Python
loop formats each of the first 8 reps with "{win_rate:.1f}"; a rep without
closed deals has a NULL win rate and Python raises TypeError, modelled as
Except.error. -/
def territoryLines (db : List Row) : Except String (List String) :=
  ((loadAnalysis db).take 8).mapM (fun rl =>
    match rl.win_rate with
    | none => Except.error fmtNoneErr
    | some w => Except.ok (territoryRepLine rl w))

/-- The territory_imbalance branch of investigate_alert (lines 791-841). -/
def investigateTerritory (db : List Row) : Except String Investigation :=
  match territoryLines db with
  | Except.error e => Except.error e
  | Except.ok lines =>
    Except.ok
      { root_cause := "Uneven territory distribution creating performance issues"
        findings := ((("Territory load by rep:") :: lines) ++ [""]) ++
          (if territoryHiCount db < territoryLoCount db
           then [territoryCapacityLine, territoryActionLine1]
           else [territoryCherryLine, territoryActionLine2])
        recommendation_prompt :=
          "Territory imbalance - rebalance load based on capacity and performance" }

/-! ## Demo-mode keyword router (get_demo_response, app.py lines 1018-1334)

Each Python "if <substrings>: result = query(...); if result: return msg"
branch becomes a (predicate, handler) pair.  A handler returns
`Except.ok none` when its query produced no rows (the Python branch then
falls through to the next predicate), `Except.ok (some msg)` on success,
and `Except.error` where Python formatting would raise on a SQL NULL.
Code after the default return at line 1334 is unreachable and not
modelled. -/

/-- int() applied to a nullable SQL value: TypeError on NULL. -/
def pyIntOpt : Option ℚ → Except String ℤ
  | none => Except.error intNoneErr
  | some q => Except.ok (pyInt q)

/-- SUM(CASE WHEN deal_stage = stage THEN 1 ELSE 0 END) over the whole
table: NULL on an empty table, else the count of matching rows. -/
def sumCaseCount (db : List Row) (stage : String) : Option ℚ :=
  if db.length = 0 then none
  else some (((db.filter (fun r => r.deal_stage == stage)).length : ℚ))

/-- Deal-count branch (lines 1023-1034). -/
def dealCountHandler (db : List Row) : Except String (Option String) := do
  let won ← pyIntOpt (sumCaseCount db ("Won"))
  let lost ← pyIntOpt (sumCaseCount db ("Lost"))
  let opn ← pyIntOpt (sumCaseCount db ("Engaging"))
  return some ((("**Total deals:** ") ++ toString db.length ++ (" (") ++ toString won ++
    (" won, ") ++ toString lost ++ (" lost, ") ++ toString opn ++ (" open)")))

/-- The win-rate answer string (line 1048). -/
def winRateMsg (db : List Row) : String :=
  let closed := closedRows db
  let won := (closed.filter (fun r => r.deal_stage == "Won")).length
  ("Our win rate is **") ++ fmtF1 (((won : ℚ) * 100) / (closed.length : ℚ)) ++
    ("%** (") ++ toString won ++ (" won out of ") ++ toString closed.length ++
    (" closed deals).")

/-- Win-rate branch (lines 1037-1048): the SQL rate is NULL exactly when
there are no closed rows, and formatting NULL with "{:.1f}" raises. -/
def winRateHandler (db : List Row) : Except String (Option String) :=
  if (closedRows db).length = 0 then Except.error fmtNoneErr
  else Except.ok (some (winRateMsg db))

/-- Lost-deals branch (lines 1051-1059); int(avg or 0) never raises. -/
def lostDealsHandler (db : List Row) : Except String (Option String) :=
  let lost := db.filter (fun r => r.deal_stage == "Lost")
  let avg := (sqlAvg (lost.map (fun r => r.close_value))).getD 0
  Except.ok (some ((("We have **") ++ toString lost.length ++
    (" lost deals**. These represent missed opportunities averaging $") ++
    toString (pyInt avg) ++ (" each."))))

/-- Sales-cycle day spans of Won rows having both dates. -/
def cycleDays (db : List Row) : List ℚ :=
  (db.filter (fun r => r.deal_stage == "Won" && r.close_date != none &&
      r.engage_date != none)).map
    (fun r => ((r.close_date.getD 0 - r.engage_date.getD 0 : ℤ) : ℚ))

/-- Minimum of a rational list (0 on empty, unreachable at call sites). -/
def listMinQ (l : List ℚ) : ℚ := l.foldr min (l.headD 0)

/-- Maximum of a rational list (0 on empty, unreachable at call sites). -/
def listMaxQ (l : List ℚ) : ℚ := l.foldr max (l.headD 0)

/-- Time-to-close branch (lines 1062-1072): AVG/MIN/MAX are NULL when no
Won row carries both dates, and int(NULL) raises. -/
def timeToCloseHandler (db : List Row) : Except String (Option String) :=
  let ds := cycleDays db
  if ds.length = 0 then Except.error intNoneErr
  else Except.ok (some ((("Average sales cycle: **") ++
    toString (pyInt (ds.sum / (ds.length : ℚ))) ++ (" days** (range: ") ++
    toString (pyInt (listMinQ ds)) ++ ("-") ++ toString (pyInt (listMaxQ ds)) ++
    (" days)"))))

/-- Calendar months are abstracted as 30-day buckets of the day number;
no claim depends on true month boundaries. -/
def monthOf (d : ℤ) : ℤ := d / 30

/-- Calendar (year, quarter) pairs are abstracted as 91-day buckets, which
are ordered the same way as ORDER BY year DESC, quarter DESC. -/
def quarterOf (d : ℤ) : ℤ := d / 91

/-- One group row of the monthly / quarterly revenue queries. -/
structure PeriodRow where
  period : ℤ
  revenue : Option ℚ
  deals : ℕ
deriving DecidableEq

/-- Monthly revenue groups (lines 1076-1086): Won rows with a close date,
grouped by month, ordered month DESC, LIMIT 6. -/
def monthlyRows (db : List Row) : List PeriodRow :=
  let rows := db.filter (fun r => r.deal_stage == "Won" && r.close_date != none)
  let months := dedup (rows.map (fun r => monthOf (r.close_date.getD 0)))
  ((sortDescByLt (fun a b => decide (a < b)) months).map (fun m =>
    let g := rows.filter (fun r => monthOf (r.close_date.getD 0) == m)
    { period := m, revenue := sqlSum (g.map (fun r => r.close_value)),
      deals := g.length : PeriodRow })).take 6

/-- Monthly-revenue branch (lines 1075-1091): empty result falls through. -/
def monthlyRevenueHandler (db : List Row) : Except String (Option String) := do
  let rows := monthlyRows db
  if rows.length = 0 then return none
  else
    let lines ← rows.mapM (fun mr => do
      let rev ← pyIntOpt mr.revenue
      return (("• ") ++ toString mr.period ++ (": $") ++ toString rev ++ (" (") ++
        toString mr.deals ++ (" deals)\n")))
    return some ((("**Monthly Revenue (Last 6 Months):**\n\n") ++ String.join lines))

/-- Quarterly groups (lines 1095-1110): Won rows with a close date grouped
by quarter, ordered newest first. -/
def quarterRows (db : List Row) : List PeriodRow :=
  let rows := db.filter (fun r => r.deal_stage == "Won" && r.close_date != none)
  let qs := dedup (rows.map (fun r => quarterOf (r.close_date.getD 0)))
  (sortDescByLt (fun a b => decide (a < b)) qs).map (fun q =>
    let g := rows.filter (fun r => quarterOf (r.close_date.getD 0) == q)
    { period := q, revenue := sqlSum (g.map (fun r => r.close_value)),
      deals := g.length : PeriodRow })

/-- Quarter-performance branch (lines 1094-1115): shows the first 4 groups. -/
def quarterHandler (db : List Row) : Except String (Option String) := do
  let rows := quarterRows db
  if rows.length = 0 then return none
  else
    let lines ← (rows.take 4).mapM (fun qr => do
      let rev ← pyIntOpt qr.revenue
      return (("• ") ++ toString qr.period ++ (": $") ++ toString rev ++ (" (") ++
        toString qr.deals ++ (" deals)\n")))
    return some ((("**Quarterly Performance:**\n\n") ++ String.join lines))

/-- One group row of product revenue queries over Won rows. -/
structure ProdRow where
  product : String
  revenue : Option ℚ
  deals : ℕ
deriving DecidableEq

/-- Won deals grouped by product (revenue and deal count per product). -/
def productRowsWon (db : List Row) : List ProdRow :=
  let rows := wonRows db
  (dedup (rows.map (fun r => r.product))).map (fun p =>
    let g := rows.filter (fun r => r.product == p)
    { product := p, revenue := sqlSum (g.map (fun r => r.close_value)),
      deals := g.length : ProdRow })

/-- Best-product branch (lines 1118-1129): ORDER BY revenue DESC LIMIT 1. -/
def topProductHandler (db : List Row) : Except String (Option String) := do
  match (sortDescByLt (fun a b => optLtQ a.revenue b.revenue) (productRowsWon db)).take 1 with
  | [] => return none
  | pr :: _ =>
    let rev ← pyIntOpt pr.revenue
    return some ((("**Best product:** ") ++ pr.product ++ (" with $") ++ toString rev ++
      (" revenue from ") ++ toString pr.deals ++ (" deals")))

/-- Pipeline branch (lines 1132-1142): avg_value or 2361 (the Python falsy
guard also replaces an exact 0 average). -/
def pipelineChatHandler (db : List Row) : Except String (Option String) :=
  let eng := db.filter (fun r => r.deal_stage == "Engaging")
  let avgVal : ℚ :=
    match sqlAvg (eng.map (fun r => r.close_value)) with
    | none => 2361
    | some v => if v = 0 then 2361 else v
  Except.ok (some ((("We have **") ++ toString eng.length ++
    (" open deals** in the pipeline with an estimated value of **$") ++
    toString (pyInt ((eng.length : ℚ) * avgVal)) ++ ("** (based on $") ++
    toString (pyInt avgVal) ++ (" avg deal size)."))))

/-- Revenue branch (lines 1145-1153): int(SUM) raises on a NULL total. -/
def revenueHandler (db : List Row) : Except String (Option String) := do
  let w := wonRows db
  let rev ← pyIntOpt (sqlSum (w.map (fun r => r.close_value)))
  return some ((("Total revenue is **$") ++ toString rev ++ ("** from **") ++
    toString w.length ++ (" won deals**.")))

/-- Projection branch (lines 1156-1181).  Python first evaluates
"days > 0" (TypeError when the span is NULL), divides the possibly-NULL
revenue (TypeError) and then formats. -/
def projectionHandler (db : List Row) : Except String (Option String) := do
  let w := db.filter (fun r => r.deal_stage == "Won" && r.close_date != none)
  let revenueOpt := sqlSum (w.map (fun r => r.close_value))
  let dts := w.map (fun r => r.close_date)
  match sqlMaxZ dts, sqlMinZ dts with
  | some mx, some mn =>
    let days : ℤ := mx - mn
    let monthlyAvg ←
      (if 0 < days then
        (match revenueOpt with
         | some rev => Except.ok ((rev / ((days : ℚ) / 30)) : ℚ)
         | none => Except.error intNoneErr)
       else Except.ok (0 : ℚ))
    let rev ← pyIntOpt revenueOpt
    return some ((("**Revenue Projections (Based on Historical Performance):**\n\n") ++
      ("📊 **End of Quarter (EOQ):** $") ++ toString (pyInt (monthlyAvg * 3)) ++
      ("\n🎯 **End of Year (EOY):** $") ++ toString (pyInt (monthlyAvg * 12)) ++
      ("\n\n*Based on:*\n- Historical revenue: $") ++ toString rev ++
      ("\n- Time period: ") ++ toString days ++ (" days\n- Monthly average: $") ++
      toString (pyInt monthlyAvg) ++
      ("\n\n⚠️ *Note: Projections assume current performance trends continue.*")))
  | _, _ => Except.error intNoneErr

/-- One group row of per-agent Won revenue queries. -/
structure AgentRow where
  agent : String
  revenue : Option ℚ
  deals : ℕ
deriving DecidableEq

/-- Won deals grouped by sales agent. -/
def agentRowsWon (db : List Row) : List AgentRow :=
  let rows := wonRows db
  (dedup (rows.map (fun r => r.sales_agent))).map (fun a =>
    let g := rows.filter (fun r => r.sales_agent == a)
    { agent := a, revenue := sqlSum (g.map (fun r => r.close_value)),
      deals := g.length : AgentRow })

/-- Top-reps branch (lines 1184-1197): ORDER BY revenue DESC LIMIT 5. -/
def topRepsHandler (db : List Row) : Except String (Option String) := do
  let rows := (sortDescByLt (fun a b => optLtQ a.revenue b.revenue) (agentRowsWon db)).take 5
  if rows.length = 0 then return none
  else
    let lines ← rows.enum.mapM (fun ia => do
      let rev ← pyIntOpt ia.2.revenue
      return (toString (ia.1 + 1) ++ (". ") ++ ia.2.agent ++ (": $") ++ toString rev ++
        (" (") ++ toString ia.2.deals ++ (" deals)\n")))
    return some ((("**Top 5 Sales Reps by Revenue:**\n\n") ++ String.join lines))

/-- Bottom-reps branch (lines 1200-1213): ORDER BY revenue ASC LIMIT 5. -/
def bottomRepsHandler (db : List Row) : Except String (Option String) := do
  let rows := (sortAscByLt (fun a b => optLtQ a.revenue b.revenue) (agentRowsWon db)).take 5
  if rows.length = 0 then return none
  else
    let lines ← rows.enum.mapM (fun ia => do
      let rev ← pyIntOpt ia.2.revenue
      return (toString (ia.1 + 1) ++ (". ") ++ ia.2.agent ++ (": $") ++ toString rev ++
        (" (") ++ toString ia.2.deals ++ (" deals)\n")))
    return some ((("**Bottom 5 Sales Reps by Revenue:**\n\n") ++ String.join lines))

/-- Team-overview branch (lines 1216-1239): aggregates over the per-rep
revenue subquery; int(NULL) raises when there are no won deals. -/
def teamOverviewHandler (db : List Row) : Except String (Option String) := do
  let revs := (agentRowsWon db).map (fun ar => ar.revenue)
  let avgRev ← pyIntOpt (sqlAvg revs)
  let topRev ← pyIntOpt (sqlMaxQ revs)
  let botRev ← pyIntOpt (sqlMinQ revs)
  return some ((("**Sales Team Overview:**\n\nTotal reps: **") ++ toString revs.length ++
    ("**\nAverage revenue per rep: **$") ++ toString avgRev ++
    ("**\nTop performer: **$") ++ toString topRev ++
    ("**\nBottom performer: **$") ++ toString botRev ++
    ("**\n\n*Range: $") ++ toString botRev ++ (" - $") ++ toString topRev ++ ("*")))

/-- Product-performance branch (lines 1242-1254). -/
def productPerfHandler (db : List Row) : Except String (Option String) := do
  let rows := sortDescByLt (fun a b => optLtQ a.revenue b.revenue) (productRowsWon db)
  if rows.length = 0 then return none
  else
    let lines ← rows.mapM (fun pr => do
      let rev ← pyIntOpt pr.revenue
      return (("• ") ++ pr.product ++ (": $") ++ toString rev ++ (" (") ++
        toString pr.deals ++ (" deals)\n")))
    return some ((("**Product Performance:**\n\n") ++ String.join lines))

/-- Deal-size branch (lines 1257-1265). -/
def dealSizeHandler (db : List Row) : Except String (Option String) := do
  let vals := (wonRows db).map (fun r => r.close_value)
  let avg ← pyIntOpt (sqlAvg vals)
  let mn ← pyIntOpt (sqlMinQ vals)
  let mx ← pyIntOpt (sqlMaxQ vals)
  return some ((("Average deal size: **$") ++ toString avg ++ ("** (range: $") ++
    toString mn ++ (" - $") ++ toString mx ++ (")")))

/-- CAC branch (lines 1268-1292): proxy cost of 500 per closed attempt,
guarded division. -/
def cacHandler (db : List Row) : Except String (Option String) :=
  let closed := closedRows db
  let won := (closed.filter (fun r => r.deal_stage == "Won")).length
  let total := closed.length
  let totalCost : ℤ := (total : ℤ) * 500
  let cac : ℚ := if 0 < won then ((totalCost : ℤ) : ℚ) / (won : ℚ) else 0
  Except.ok (some ((("**Customer Acquisition Cost (Estimated):**\n\nCAC: **$") ++
    toString (pyInt cac) ++
    ("** per customer\n\n*Calculation:*\n- Total deal attempts: ") ++ toString total ++
    (" (won + lost)\n- Won deals: ") ++ toString won ++
    ("\n- Estimated cost per attempt: $500\n- Total sales cost: $") ++ toString totalCost ++
    ("\n\n⚠️ *Note: This is a proxy CAC based on estimated sales effort. Actual CAC requires marketing/sales spend data.*"))))

/-- Per-row sales-cycle spans of Won rows for the velocity query
(CASE WHEN Won THEN julianday difference END: NULL without both dates). -/
def wonCycleVals (db : List Row) : List (Option ℚ) :=
  (wonRows db).map (fun r =>
    match r.close_date, r.engage_date with
    | some c, some e => some (((c - e : ℤ) : ℚ))
    | _, _ => none)

/-- Velocity branch (lines 1295-1331): NULL-propagating SQL arithmetic,
then int()/format of possibly-NULL results. -/
def velocityHandler (db : List Row) : Except String (Option String) := do
  let pipelineDeals := openDealCount db
  let avgVal := sqlAvg ((wonRows db).map (fun r => r.close_value))
  let closed := closedRows db
  let winRate : Option ℚ :=
    if closed.length = 0 then none
    else some ((((closed.filter (fun r => r.deal_stage == "Won")).length : ℚ) * 100) /
      (closed.length : ℚ))
  let cycle := sqlAvg (wonCycleVals db)
  let daily : Option ℚ :=
    match avgVal, winRate, cycle with
    | some av, some wr, some cy =>
      if cy = 0 then none else some (((pipelineDeals : ℚ) * av * (wr / 100)) / cy)
    | _, _, _ => none
  let monthlyVel ← pyIntOpt (daily.map (fun d => d * 30))
  let dailyVel ← pyIntOpt daily
  let avI ← pyIntOpt avgVal
  match winRate, cycle with
  | some wr, some cy =>
    return some ((("**Pipeline Velocity:**\n\nMonthly velocity: **$") ++
      toString monthlyVel ++ ("**\nDaily velocity: **$") ++ toString dailyVel ++
      ("**\n\n*Formula: (Pipeline deals × Avg deal value × Win rate) / Avg sales cycle*") ++
      ("\n\n**Breakdown:**\n- Pipeline deals: ") ++ toString pipelineDeals ++
      ("\n- Avg deal value: $") ++ toString avI ++
      ("\n- Win rate: ") ++ fmtF1 wr ++
      ("%\n- Avg sales cycle: ") ++ toString (pyInt cy) ++
      (" days\n\nThis represents the amount of revenue flowing through your pipeline per month.")))
  | _, _ => Except.error fmtNoneErr

/-- Router predicate: deal count (line 1023). -/
def dealCountPred (p : String) : Bool :=
  containsSub p ("how many deal") || containsSub p ("total deal") ||
    containsSub p ("number of deal")

/-- Router predicate: win rate (line 1037). -/
def winRatePred (p : String) : Bool :=
  containsSub p ("close rate") || containsSub p ("win rate")

/-- Router predicate: lost deals (line 1051). -/
def lostPred (p : String) : Bool :=
  containsSub p ("lost deal") || containsSub p ("losses")

/-- Router predicate: time to close (line 1062). -/
def timeToClosePred (p : String) : Bool :=
  containsSub p ("time to close") || containsSub p ("sales cycle") ||
    containsSub p ("how long")

/-- Router predicate: monthly revenue (line 1075). -/
def monthlyPred (p : String) : Bool :=
  containsSub p ("monthly") && containsSub p ("revenue")

/-- Router predicate: quarterly performance (line 1094). -/
def quarterPred (p : String) : Bool :=
  containsSub p ("quarter") && (containsSub p ("performance") || containsSub p ("revenue"))

/-- Router predicate: best product (line 1118). -/
def topProductPred (p : String) : Bool :=
  (containsSub p ("best") || containsSub p ("top")) && containsSub p ("product")

/-- Router predicate: pipeline (line 1132). -/
def pipelinePred (p : String) : Bool :=
  containsSub p ("pipeline") || containsSub p ("open")

/-- Router predicate: revenue (line 1145). -/
def revenuePred (p : String) : Bool :=
  containsSub p ("revenue") && !(containsSub p ("projection")) &&
    !(containsSub p ("forecast"))

/-- Router predicate: projection (line 1156). -/
def projectionPred (p : String) : Bool :=
  containsSub p ("projection") || containsSub p ("forecast")

/-- Router predicate: top reps (line 1184). -/
def topRepsPred (p : String) : Bool :=
  containsSub p ("top") && (containsSub p ("rep") || containsSub p ("agent") ||
    containsSub p ("sales"))

/-- Router predicate: bottom reps (line 1200). -/
def bottomRepsPred (p : String) : Bool :=
  containsSub p ("bottom") && (containsSub p ("rep") || containsSub p ("agent") ||
    containsSub p ("performer"))

/-- Router predicate: team overview (line 1216). -/
def teamPred (p : String) : Bool :=
  (containsSub p ("sales agent") || containsSub p ("how many")) &&
    (containsSub p ("rep") || containsSub p ("agent"))

/-- Router predicate: product performance (line 1242). -/
def productPred (p : String) : Bool := containsSub p ("product")

/-- Router predicate: deal size (line 1257). -/
def dealSizePred (p : String) : Bool :=
  containsSub p ("deal size") || containsSub p ("average deal")

/-- Router predicate: CAC (line 1268). -/
def cacPred (p : String) : Bool :=
  containsSub p ("cac") || containsSub p ("acquisition cost") ||
    containsSub p ("customer acquisition")

/-- Router predicate: velocity (line 1295). -/
def velocityPred (p : String) : Bool :=
  containsSub p ("velocity") || containsSub p ("pipeline velocity")

/-- The fixed help message returned when nothing matched (line 1334; the
quoted example-prompt sentence is elided). -/
def helpMessage : String :=
  "I can help with questions about win rate, pipeline, revenue, projections, sales cycle, top reps, products, deal sizes, CAC, velocity, monthly/quarterly performance, and more."

/-- The ordered (predicate, handler) table of the demo router, in source
order of the if-statements of get_demo_response. -/
def demoEntries : List ((String → Bool) × (List Row → Except String (Option String))) :=
  [(dealCountPred, dealCountHandler), (winRatePred, winRateHandler),
   (lostPred, lostDealsHandler), (timeToClosePred, timeToCloseHandler),
   (monthlyPred, monthlyRevenueHandler), (quarterPred, quarterHandler),
   (topProductPred, topProductHandler), (pipelinePred, pipelineChatHandler),
   (revenuePred, revenueHandler), (projectionPred, projectionHandler),
   (topRepsPred, topRepsHandler), (bottomRepsPred, bottomRepsHandler),
   (teamPred, teamOverviewHandler), (productPred, productPerfHandler),
   (dealSizePred, dealSizeHandler), (cacPred, cacHandler),
   (velocityPred, velocityHandler)]

/-- First-match routing with fall-through on an empty query result, the
exact control flow of the Python if-chain. -/
def routeDemo :
    List ((String → Bool) × (List Row → Except String (Option String))) →
      String → List Row → Except String String
  | [], _, _ => Except.ok helpMessage
  | (p, h) :: rest, lp, db =>
    if p lp then
      match h db with
      | Except.error e => Except.error e
      | Except.ok (some s) => Except.ok s
      | Except.ok none => routeDemo rest lp db
    else routeDemo rest lp db

/-- get_demo_response (lines 1018-1334): lower-case the prompt, walk the
predicate table. -/
def get_demo_response (prompt : String) (db : List Row) : Except String String :=
  routeDemo demoEntries (lowerStr prompt) db

/-- Does any router predicate match the (lower-cased) prompt? -/
def anyDemoPredMatches (lp : String) : Bool :=
  (demoEntries.map (fun e => e.1 lp)).any id

/-! ## Admin panel mutations (app.py sidebar, lines 2077-2331) -/

/-- Deal-id selection of the close-deals button (lines 2087-2142):
70 percent newest, 25 percent median-age, remainder oldest, all drawn from
Engaging rows with a non-NULL engage date.  int(n*0.7) and int(n*0.25) are
exact for the multiplier choices offered (all multiples of 10), modelled
as 7*n/10 and n/4.  The median window is rows ranked (total/2 - c/2)
through (total/2 + c/2) of the engage-date-descending ranking. -/
def closeDealsSelect (db : List Row) (n : ℕ) : List String :=
  let eng := db.filter (fun r => r.deal_stage == "Engaging" && r.engage_date != none)
  let newestCount := 7 * n / 10
  let medianCount := n / 4
  let oldestCount := n - newestCount - medianCount
  let ranked := sortDescByLt (fun a b => optLtZ a.engage_date b.engage_date) eng
  let newest := ranked.take newestCount
  let total : ℤ := (ranked.length : ℤ)
  let lo : ℤ := total / 2 - (medianCount : ℤ) / 2
  let hi : ℤ := total / 2 + (medianCount : ℤ) / 2
  let median := ((ranked.enum.filter (fun ie =>
      decide (lo ≤ (ie.1 : ℤ) + 1) && decide ((ie.1 : ℤ) + 1 ≤ hi))).map
    (fun ie => ie.2)).take medianCount
  let oldest := (sortAscByLt (fun a b => optLtZ a.engage_date b.engage_date) eng).take oldestCount
  (newest ++ median ++ oldest).map (fun r => r.opportunity_id)

/-- The close-deals button (lines 2087-2160): every selected opportunity id
is updated to Won with close_value = avg deal size and close_date = the
pre-computed reference date. -/
def closeDealsAction (db : List Row) (n : ℕ) (avgDealSize : ℚ) : List Row :=
  let ref := referenceDate db
  let ids := closeDealsSelect db n
  db.map (fun r =>
    if ids.contains r.opportunity_id then
      { r with deal_stage := "Won", close_value := some avgDealSize,
               close_date := some ref }
    else r)

/-- One UPDATE of the mark-lost loop (lines 2180-2188): the subquery
MAX(close_date) is re-evaluated against the current table state. -/
def markLostStep (db : List Row) (id : String) : List Row :=
  let m := maxCloseDate db
  db.map (fun r =>
    if r.opportunity_id == id then { r with deal_stage := "Lost", close_date := m }
    else r)

/-- Ids selected by the mark-lost button (lines 2170-2176): the n newest
Engaging rows by engage date. -/
def markLostSelect (db : List Row) (n : ℕ) : List String :=
  ((sortDescByLt (fun a b => optLtZ a.engage_date b.engage_date)
      (db.filter (fun r => r.deal_stage == "Engaging"))).take n).map
    (fun r => r.opportunity_id)

/-- The mark-lost button (lines 2164-2198): sequential updates, close_value
left untouched. -/
def markLostAction (db : List Row) (n : ℕ) : List Row :=
  (markLostSelect db n).foldl markLostStep db

/-- A row inserted by the add-opportunities button (lines 2217-2226):
stage Engaging, engage date = reference date, NULL close date, close value
= average deal size.  The random id/agent/product choices of the Python
code are taken as parameters. -/
def newOppRow (ref : ℤ) (avgDealSize : ℚ) (acct : String) (c : String × String × String) : Row :=
  { opportunity_id := c.1, sales_agent := c.2.1, product := c.2.2,
    account := some acct, deal_stage := "Engaging", engage_date := some ref,
    close_date := none, close_value := some avgDealSize }

/-- The add-opportunities button (lines 2202-2238). -/
def addOppsAction (db : List Row) (choices : List (String × String × String))
    (avgDealSize : ℚ) : List Row :=
  db ++ choices.map (newOppRow (referenceDate db) avgDealSize ("New Opportunity"))

/-- The hire-agent button (lines 2240-2276): counts rows whose agent is
prefixed "Admin Panel Agent", names the new agent, inserts Engaging rows
(5 in the source; the random id/product draws are parameters) with NULL
close date and populated close value. -/
def hireAgentAction (db : List Row) (choices : List (String × String))
    (avgDealSize : ℚ) : List Row :=
  let adminCount := (db.filter (fun r =>
      ("Admin Panel Agent").isPrefixOf r.sales_agent)).length
  let agent := ("Admin Panel Agent #") ++ toString (adminCount + 1)
  db ++ choices.map (fun c =>
    { opportunity_id := c.1, sales_agent := agent, product := c.2,
      account := some ("New Account"), deal_stage := "Engaging",
      engage_date := some (referenceDate db), close_date := none,
      close_value := some avgDealSize : Row })

/-! ## CSV loader (load_data.py, lines 49-61) -/

/-- One CSV record as pandas presents it (missing cells are None). -/
structure CsvRecord where
  opportunity_id : String
  sales_agent : String
  product : String
  account : Option String
  deal_stage : String
  engage_date : Option ℤ
  close_date : Option ℤ
  close_value : Option ℤ
deriving DecidableEq

/-- The insert-loop value tuple of load_data.py: dates pass through as
NULL when missing, but close_value becomes int(v) when present and the
literal 0 — not NULL — when missing. -/
def loadRow (rec : CsvRecord) : Row :=
  { opportunity_id := rec.opportunity_id, sales_agent := rec.sales_agent,
    product := rec.product, account := rec.account, deal_stage := rec.deal_stage,
    engage_date := rec.engage_date, close_date := rec.close_date,
    close_value := some (((rec.close_value.getD 0 : ℤ) : ℚ)) }

/-! ## Session state machine for the live-mode meter (app.py UI flow)

The Streamlit session state relevant to the external-responder cap:
demo_mode and live_mode_questions.  One user interaction is one event; the
second component of a step is the number of invocations of the metered
external responder (get_claude_response or get_ai_recommendations) that
the interaction performs. -/

/-- Session state: st.session_state.demo_mode / live_mode_questions. -/
structure Session where
  demoMode : Bool
  liveQuestions : ℕ
deriving DecidableEq

/-- User interactions that touch the meter or the mode. -/
inductive UserEvent : Type
  | chat
  | recommendClick (pwdOk : Bool)
  | toggleLive (pwdOk : Bool)
  | toggleDemo
deriving DecidableEq

/-- One interaction (app.py lines 1741-1784, 1842-1858, 2034-2057):
* chat: a live-mode prompt with an exhausted meter is forced back to demo
  mode before answering (line 1843-1845); a demo prompt never calls the
  external responder; otherwise one external call and the counter steps.
* recommendClick: the button only exists while remaining_questions > 0
  (line 1743) and with the right password enables live mode, counts one
  question and makes one external call (lines 1750-1757).
* toggleLive: the toggle is only rendered while the counter is below 5
  (line 2034) and needs the password.
* toggleDemo: back to demo mode, no call. -/
def stepSession (s : Session) : UserEvent → Session × ℕ
  | UserEvent.chat =>
    if !s.demoMode && decide (5 ≤ s.liveQuestions) then
      ({ s with demoMode := true }, 0)
    else if s.demoMode then (s, 0)
    else ({ s with liveQuestions := s.liveQuestions + 1 }, 1)
  | UserEvent.recommendClick pwdOk =>
    if pwdOk && decide (s.liveQuestions < 5) then
      ({ demoMode := false, liveQuestions := s.liveQuestions + 1 }, 1)
    else (s, 0)
  | UserEvent.toggleLive pwdOk =>
    if pwdOk && decide (s.liveQuestions < 5) then ({ s with demoMode := false }, 0)
    else (s, 0)
  | UserEvent.toggleDemo => ({ s with demoMode := true }, 0)

/-- Run a session: final state and total external-responder invocations. -/
def runSession : Session → List UserEvent → Session × ℕ
  | s, [] => (s, 0)
  | s, e :: es =>
    let p := stepSession s e
    let q := runSession p.1 es
    (q.1, p.2 + q.2)

/-- Initial session state (app.py lines 52-56). -/
def initSession : Session := { demoMode := true, liveQuestions := 0 }

/-! ## Supporting lemmas -/

/-- optMaxZ is NULL only when both arguments are. -/
lemma optMaxZ_eq_none_iff (a b : Option ℤ) :
    optMaxZ a b = none ↔ a = none ∧ b = none := by
  cases a <;> cases b <;> simp [optMaxZ]

/-- A left argument of optMaxZ is bounded by a non-NULL result. -/
lemma optMaxZ_le_left (a b : Option ℤ) (m d : ℤ)
    (h : optMaxZ a b = some m) (ha : a = some d) : d ≤ m := by
  subst ha
  cases b with
  | none => simp [optMaxZ] at h; omega
  | some y => simp [optMaxZ] at h; omega

/-- A right argument of optMaxZ is bounded by a non-NULL result. -/
lemma optMaxZ_le_right (a : Option ℤ) (b m : ℤ)
    (h : optMaxZ a (some b) = some m) : b ≤ m := by
  cases a with
  | none => simp [optMaxZ] at h; omega
  | some x => simp [optMaxZ] at h; omega

/-- MAX(close_date) is NULL exactly when every row has a NULL close date. -/
lemma maxCD_eq_none_iff (db : List Row) :
    maxCloseDate db = none ↔ ∀ r ∈ db, r.close_date = none := by
  induction db with
  | nil => simp [maxCloseDate]
  | cons r db ih =>
    simp only [maxCloseDate, List.foldr_cons] at *
    rw [optMaxZ_eq_none_iff, ih]
    simp

/-- Every close date in the table is bounded by MAX(close_date). -/
lemma maxCD_le (db : List Row) (m : ℤ) (h : maxCloseDate db = some m) :
    ∀ r ∈ db, ∀ d : ℤ, r.close_date = some d → d ≤ m := by
  induction db generalizing m with
  | nil => simp [maxCloseDate] at h
  | cons r db ih =>
    intro x hx d hd
    simp only [maxCloseDate, List.foldr_cons] at h
    rcases List.mem_cons.mp hx with rfl | hx
    · exact optMaxZ_le_left _ _ _ _ h hd
    · cases hb : (maxCloseDate db) with
      | none =>
        have := (maxCD_eq_none_iff db).mp hb x hx
        rw [this] at hd; cases hd
      | some b =>
        have hb2 : db.foldr (fun r acc => optMaxZ r.close_date acc) none = some b := hb
        rw [hb2] at h
        exact le_trans (ih b hb x hx d hd) (optMaxZ_le_right _ _ _ h)

/-- A non-NULL MAX(close_date) is attained by some row. -/
lemma maxCD_attained (db : List Row) (m : ℤ) (h : maxCloseDate db = some m) :
    ∃ r ∈ db, r.close_date = some m := by
  induction db generalizing m with
  | nil => simp [maxCloseDate] at h
  | cons r db ih =>
    simp only [maxCloseDate, List.foldr_cons] at h
    cases ha : r.close_date with
    | none =>
      rw [ha] at h
      simp only [optMaxZ] at h
      obtain ⟨x, hx, hcx⟩ := ih m h
      exact ⟨x, List.mem_cons_of_mem _ hx, hcx⟩
    | some a =>
      cases hb : (maxCloseDate db) with
      | none =>
        have hb2 : db.foldr (fun r acc => optMaxZ r.close_date acc) none = none := hb
        rw [ha, hb2] at h
        simp only [optMaxZ, Option.some.injEq] at h
        exact ⟨r, List.mem_cons_self r db, by rw [ha, h]⟩
      | some b =>
        have hb2 : db.foldr (fun r acc => optMaxZ r.close_date acc) none = some b := hb
        rw [ha, hb2] at h
        simp only [optMaxZ, Option.some.injEq] at h
        rcases le_total a b with hab | hba
        · obtain ⟨x, hx, hcx⟩ := ih b hb
          rw [max_eq_right hab] at h
          exact ⟨x, List.mem_cons_of_mem _ hx, by rw [hcx, h]⟩
        · rw [max_eq_left hba] at h
          exact ⟨r, List.mem_cons_self r db, by rw [ha, h]⟩

/-- MAX(close_date) equals a value that bounds all rows and is attained. -/
lemma maxCD_eq_some (db : List Row) (m : ℤ)
    (hub : ∀ r ∈ db, ∀ d : ℤ, r.close_date = some d → d ≤ m)
    (hmem : ∃ r ∈ db, r.close_date = some m) :
    maxCloseDate db = some m := by
  induction db with
  | nil => simp at hmem
  | cons r db ih =>
    simp only [maxCloseDate, List.foldr_cons]
    obtain ⟨x, hx, hcx⟩ := hmem
    rcases List.mem_cons.mp hx with rfl | hx
    · rw [hcx]
      cases hb : (maxCloseDate db) with
      | none =>
        have hb2 : db.foldr (fun r acc => optMaxZ r.close_date acc) none = none := hb
        rw [hb2]; rfl
      | some b =>
        have hb2 : db.foldr (fun r acc => optMaxZ r.close_date acc) none = some b := hb
        obtain ⟨y, hy, hcy⟩ := maxCD_attained db b hb
        have hbm : b ≤ m := hub y (List.mem_cons_of_mem _ hy) b hcy
        rw [hb2]
        simp [optMaxZ, max_eq_left hbm]
    · have h2 : maxCloseDate db = some m :=
        ih (fun z hz d hd => hub z (List.mem_cons_of_mem _ hz) d hd) ⟨x, hx, hcx⟩
      have h3 : db.foldr (fun r acc => optMaxZ r.close_date acc) none = some m := h2
      rw [h3]
      cases ha : r.close_date with
      | none => rfl
      | some a =>
        have ham : a ≤ m := hub r (List.mem_cons_self r db) a ha
        simp [optMaxZ, max_eq_right ham]

/-- Mapping a function that leaves rows alone or stamps their close date
with the current maximum preserves MAX(close_date). -/
lemma maxCD_map_stamp (db : List Row) (m : ℤ) (f : Row → Row)
    (h : maxCloseDate db = some m)
    (hf : ∀ r ∈ db, f r = r ∨ (f r).close_date = some m) :
    maxCloseDate (db.map f) = some m := by
  apply maxCD_eq_some
  · intro x hx d hd
    obtain ⟨r, hr, rfl⟩ := List.mem_map.mp hx
    rcases hf r hr with he | he
    · rw [he] at hd
      exact maxCD_le db m h r hr d hd
    · rw [he] at hd
      injection hd with h1
      omega
  · obtain ⟨r, hr, hcr⟩ := maxCD_attained db m h
    refine ⟨f r, List.mem_map_of_mem f hr, ?_⟩
    rcases hf r hr with he | he
    · rw [he, hcr]
    · exact he

/-- One mark-lost UPDATE preserves MAX(close_date): the stamped value is
the current maximum itself. -/
lemma maxCD_markLostStep (db : List Row) (id : String) :
    maxCloseDate (markLostStep db id) = maxCloseDate db := by
  cases h : maxCloseDate db with
  | none =>
    rw [maxCD_eq_none_iff]
    intro x hx
    simp only [markLostStep, List.mem_map] at hx
    obtain ⟨r, hr, rfl⟩ := hx
    by_cases hc : (r.opportunity_id == id) = true
    · simp [hc, h]
    · simp only [hc, if_false, Bool.false_eq_true]
      exact (maxCD_eq_none_iff db).mp h r hr
  | some m =>
    have he : markLostStep db id = db.map (fun r =>
        if r.opportunity_id == id then
          { r with deal_stage := "Lost", close_date := maxCloseDate db } else r) := rfl
    rw [he]
    apply maxCD_map_stamp db m _ h
    intro r hr
    by_cases hc : (r.opportunity_id == id) = true
    · right; simp [hc, h]
    · left; simp [hc]

/-- The whole mark-lost loop preserves MAX(close_date). -/
lemma maxCD_markLost_foldl (ids : List String) (db : List Row) :
    maxCloseDate (ids.foldl markLostStep db) = maxCloseDate db := by
  induction ids generalizing db with
  | nil => rfl
  | cons id ids ih => rw [List.foldl_cons, ih, maxCD_markLostStep]

/-- Appending rows with NULL close dates preserves MAX(close_date). -/
lemma maxCD_append_none (db rows : List Row)
    (h : ∀ r ∈ rows, r.close_date = none) :
    maxCloseDate (db ++ rows) = maxCloseDate db := by
  have h2 : maxCloseDate rows = none := (maxCD_eq_none_iff rows).mpr h
  have h3 : rows.foldr (fun r acc => optMaxZ r.close_date acc) none = none := h2
  simp only [maxCloseDate, List.foldr_append, h3]

/-- The last element of a list ending in an explicit pair. -/
lemma getLast?_append_pair {α : Type} (xs : List α) (a b : α) :
    (xs ++ [a, b]).getLast? = some b := by
  induction xs with
  | nil => rfl
  | cons x xs ih =>
    rw [List.cons_append, List.getLast?_cons]
    simp only [ih]
    cases xs <;> simp_all [List.getLast?_cons]

/-- A step never decreases the counter and counts exactly its external
calls. -/
lemma stepSession_count (s : Session) (e : UserEvent) :
    (stepSession s e).1.liveQuestions = s.liveQuestions + (stepSession s e).2 := by
  cases e <;> simp only [stepSession] <;> (try split_ifs) <;> simp

/-- A step keeps the counter within the cap. -/
lemma stepSession_le (s : Session) (e : UserEvent) (h : s.liveQuestions ≤ 5) :
    (stepSession s e).1.liveQuestions ≤ 5 := by
  cases e <;> simp only [stepSession] <;> (try split_ifs) <;>
    simp_all <;> omega

/-- Across a run, the counter advances by exactly the number of external
calls made. -/
lemma runSession_count (evts : List UserEvent) (s : Session) :
    (runSession s evts).1.liveQuestions = s.liveQuestions + (runSession s evts).2 := by
  induction evts generalizing s with
  | nil => simp [runSession]
  | cons e es ih =>
    simp only [runSession]
    rw [ih, stepSession_count]
    omega

/-- A run keeps the counter within the cap. -/
lemma runSession_le (evts : List UserEvent) (s : Session) (h : s.liveQuestions ≤ 5) :
    (runSession s evts).1.liveQuestions ≤ 5 := by
  induction evts generalizing s with
  | nil => simpa [runSession] using h
  | cons e es ih =>
    simp only [runSession]
    exact ih _ (stepSession_le s e h)

/-- Deduplication of a nonempty list is nonempty. -/
lemma dedup_ne_nil {α : Type} [BEq α] (l : List α) (h : l ≠ []) :
    dedup l ≠ [] := by
  cases l with
  | nil => exact absurd rfl h
  | cons a rest => simp [dedup, dedupAux]

/-- Stable descending insert grows the length by one. -/
lemma insertDescByLt_length {α : Type} (ltB : α → α → Bool) (a : α) (l : List α) :
    (insertDescByLt ltB a l).length = l.length + 1 := by
  induction l with
  | nil => rfl
  | cons x xs ih =>
    simp only [insertDescByLt]
    split <;> simp [ih]

/-- Stable descending sort preserves the length. -/
lemma sortDescByLt_length {α : Type} (ltB : α → α → Bool) (l : List α) :
    (sortDescByLt ltB l).length = l.length := by
  suffices h : ∀ acc : List α,
      (l.foldl (fun acc a => insertDescByLt ltB a acc) acc).length = acc.length + l.length by
    simpa [sortDescByLt] using h []
  induction l with
  | nil => simp
  | cons x xs ih =>
    intro acc
    simp only [List.foldl_cons]
    rw [ih, insertDescByLt_length, List.length_cons]
    omega

/-- With at least one stuck deal the stuck_analysis group list is
nonempty. -/
lemma stuckAnalysis_ne_nil (db : List Row) (h : stuckRows db ≠ []) :
    (stuckAnalysis db).length ≠ 0 := by
  have h1 : (stuckRows db).map (fun r => r.sales_agent) ≠ [] := by
    simpa using h
  have h2 := dedup_ne_nil _ h1
  have h3 : 0 < (dedup ((stuckRows db).map (fun r => r.sales_agent))).length :=
    List.length_pos.mpr h2
  simp only [stuckAnalysis, List.length_take, sortDescByLt_length, List.length_map]
  omega

/-- With at least one stuck deal, the last churn finding names the chosen
root cause: the complexity tail line exactly in the complexity branch. -/
lemma investigateChurn_findings_getLast (db : List Row) (h1 : stuckRows db ≠ []) :
    (investigateChurn db).findings.getLast? =
      some (if churnComplexityCond db then churnComplexityLine2 else churnHygieneLine2) := by
  have hlen := stuckAnalysis_ne_nil db h1
  simp only [investigateChurn]
  rw [if_neg hlen]
  by_cases hc : churnComplexityCond db = true
  · rw [if_pos hc, if_pos hc]
    exact getLast?_append_pair _ _ _
  · rw [if_neg hc, if_neg hc]
    exact getLast?_append_pair _ _ _

/-- When the territory investigation succeeds, the last finding names the
chosen root-cause action line. -/
lemma investigateTerritory_findings_getLast (db : List Row) (inv : Investigation)
    (h2 : investigateTerritory db = Except.ok inv) :
    inv.findings.getLast? =
      some (if territoryHiCount db < territoryLoCount db
            then territoryActionLine1 else territoryActionLine2) := by
  unfold investigateTerritory at h2
  cases hM : territoryLines db with
  | error e => rw [hM] at h2; cases h2
  | ok lines =>
    rw [hM] at h2
    injection h2 with h3
    subst h3
    by_cases hc : territoryHiCount db < territoryLoCount db
    · rw [if_pos hc, if_pos hc]
      exact getLast?_append_pair _ _ _
    · rw [if_neg hc, if_neg hc]
      exact getLast?_append_pair _ _ _

/-! ## Concrete datasets used by the claim theorems -/

/-- Churn counterexample data: one Lost deal fixes the reference date at
day 100 and there are no Won deals (so the average won value is 0); one
Engaging deal with a populated close_value has been stuck 100 days. -/
def exChurnDb : List Row :=
  [{ opportunity_id := "L1", sales_agent := "A", product := "P", account := none,
     deal_stage := "Lost", engage_date := some 0, close_date := some 100,
     close_value := none },
   { opportunity_id := "E1", sales_agent := "A", product := "P", account := none,
     deal_stage := "Engaging", engage_date := some 0, close_date := none,
     close_value := some 100 }]

/-- Agent names of the nine-rep territory dataset. -/
def t9Agent (i : ℕ) : String := ("T") ++ toString i

/-- Territory dataset with nine high-load reps: rep i has 59-i open deals
(all above the 50-deal threshold, all loads distinct) and reps 0-3 each
have one Won deal of value 90 while reps 4-8 have revenue 0. -/
def exT9db : List Row :=
  (((List.range 9).map (fun i =>
    (List.range (59 - i)).map (fun _ =>
      { opportunity_id := "e", sales_agent := t9Agent i, product := "P",
        account := none, deal_stage := "Engaging", engage_date := some 0,
        close_date := none, close_value := none : Row }))).flatten) ++
  ((List.range 4).map (fun i =>
    { opportunity_id := "w", sales_agent := t9Agent i, product := "P",
      account := none, deal_stage := "Won", engage_date := some 0,
      close_date := some 1, close_value := some 90 : Row }))

/-- Territory dataset with two high-load reps of exactly average revenue:
rep A has 52 open deals, rep B has 51, and each has one Won deal of 60. -/
def exT2db : List Row :=
  ((List.range 52).map (fun _ =>
    { opportunity_id := "e", sales_agent := "A", product := "P", account := none,
      deal_stage := "Engaging", engage_date := some 0, close_date := none,
      close_value := none : Row })) ++
  ((List.range 51).map (fun _ =>
    { opportunity_id := "e", sales_agent := "B", product := "P", account := none,
      deal_stage := "Engaging", engage_date := some 0, close_date := none,
      close_value := none : Row })) ++
  [{ opportunity_id := "w1", sales_agent := "A", product := "P", account := none,
     deal_stage := "Won", engage_date := some 0, close_date := some 1,
     close_value := some 60 },
   { opportunity_id := "w2", sales_agent := "B", product := "P", account := none,
     deal_stage := "Won", engage_date := some 0, close_date := some 1,
     close_value := some 60 }]

/-- Witness dataset for C1: one rep with a stuck open deal and a won deal,
so both investigation branches run without failure. -/
def c1wdb : List Row :=
  [{ opportunity_id := "E1", sales_agent := "Alice", product := "P", account := none,
     deal_stage := "Engaging", engage_date := some 0, close_date := none,
     close_value := none },
   { opportunity_id := "W1", sales_agent := "Alice", product := "P", account := none,
     deal_stage := "Won", engage_date := some 0, close_date := some 100,
     close_value := some 50 }]


/-! ## C1 - the Investigator's binary root-cause decision table -/

/-- C1 counterexample: the claim's decision rules disagree with the code.
Churn: on exChurnDb the stuck average (100) exceeds 1.3 times the won
average (0), so the claim predicts the deal-complexity call, but the code
guard avg_won > 0 fails and the code reports pipeline hygiene.
Territory: on exT9db the whole-roster counts are 5 below-average versus 4
above-average high-load reps, so the claim predicts capacity overwhelm,
but the code only counts the first 8 reps (4 versus 4) and reports
cherry-picking; on exT2db both high-load reps sit exactly at the average
revenue, so the claim predicts cherry-picking (nobody below average
outnumbers nobody above), but the code counts not-above-average reps as
low performers (2 versus 0) and reports capacity overwhelm. -/
theorem c1_counterexample :
    (stuckRows exChurnDb ≠ [] ∧ specChurnComplexity exChurnDb = true ∧
      churnComplexityCond exChurnDb = false) ∧
    (specTerritoryOverwhelm exT9db = true ∧ codeTerritoryOverwhelm exT9db = false) ∧
    (specTerritoryOverwhelm exT2db = false ∧ codeTerritoryOverwhelm exT2db = true) := by
  refine ⟨⟨?_, ?_, ?_⟩, ⟨?_, ?_⟩, ⟨?_, ?_⟩⟩ <;> decide

/-- C1 (amended): for churn_risk with at least one stuck deal the
investigation reports deal complexity exactly when the stuck average AND
the overall won average are both positive and the stuck average exceeds
1.3 times the won average, pipeline hygiene otherwise; for
territory_imbalance (when the investigation returns, i.e. every displayed
rep has a win rate) it reports capacity overwhelm exactly when, among the
first 8 reps of the load ranking, high-load reps (more than 50 open deals)
with revenue not above the roster average outnumber those with revenue
above average, cherry-picking otherwise (ties included). -/
theorem c1_theorem (db : List Row) (h1 : stuckRows db ≠ [])
    (inv : Investigation) (h2 : investigateTerritory db = Except.ok inv) :
    ((investigateChurn db).findings.getLast? = some churnComplexityLine2 ↔
      (0 < avgStuckValue db ∧ 0 < avgWonValue db ∧
        avgWonValue db * (13 / 10) < avgStuckValue db)) ∧
    (inv.findings.getLast? = some territoryActionLine1 ↔
      territoryHiCount db < territoryLoCount db) := by
  constructor
  · rw [investigateChurn_findings_getLast db h1]
    by_cases hc : churnComplexityCond db = true
    · rw [if_pos hc]
      simp only [churnComplexityCond, Bool.and_eq_true, decide_eq_true_eq] at hc
      exact iff_of_true rfl ⟨hc.1.1, hc.1.2, hc.2⟩
    · rw [if_neg hc]
      simp only [churnComplexityCond, Bool.and_eq_true, decide_eq_true_eq] at hc
      exact iff_of_false (by decide) (fun h => hc ⟨⟨h.1, h.2.1⟩, h.2.2⟩)
  · rw [investigateTerritory_findings_getLast db inv h2]
    by_cases hc : territoryHiCount db < territoryLoCount db
    · rw [if_pos hc]
      exact iff_of_true rfl hc
    · rw [if_neg hc]
      exact iff_of_false (by decide) hc

/-- C1 witness: the amended decision rule applied to the concrete dataset
c1wdb, with both hypotheses discharged by evaluation. -/
theorem c1_witness :
    ((investigateChurn c1wdb).findings.getLast? = some churnComplexityLine2 ↔
      (0 < avgStuckValue c1wdb ∧ 0 < avgWonValue c1wdb ∧
        avgWonValue c1wdb * (13 / 10) < avgStuckValue c1wdb)) :=
  (c1_theorem c1wdb (by decide) _ rfl).1

/-! ## C2 - which rules use the data-derived reference date -/

/-- Dataset for the slow-ramp rule: two reps engaged on day 0 whose first
wins came after 10 and 100 days. -/
def c2RampDb : List Row :=
  [{ opportunity_id := "A1", sales_agent := "A", product := "P", account := none,
     deal_stage := "Won", engage_date := some 0, close_date := some 10,
     close_value := some 5 },
   { opportunity_id := "B1", sales_agent := "B", product := "P", account := none,
     deal_stage := "Won", engage_date := some 0, close_date := some 100,
     close_value := some 5 }]

/-- Dataset for the discount rule: two won deals closed on day 0 with
values 10 and 100 (average 55, discount threshold 44). -/
def c2DiscDb : List Row :=
  [{ opportunity_id := "D1", sales_agent := "A", product := "P", account := none,
     deal_stage := "Won", engage_date := some 0, close_date := some 0,
     close_value := some 10 },
   { opportunity_id := "D2", sales_agent := "A", product := "P", account := none,
     deal_stage := "Won", engage_date := some 0, close_date := some 0,
     close_value := some 100 }]

/-- C2: on a fixed dataset snapshot, the slow-ramp and discount-frequency
rules change their verdict as wall-clock time moves (they use
JULIANDAY('now') and date('now','-90 days')), contradicting the claim that
every time-based rule measures against the max-close-date reference date;
the churn rule really is independent of the wall clock. -/
theorem c2_theorem :
    slowRampFires c2RampDb 150 = true ∧ slowRampFires c2RampDb 300 = false ∧
    discountFires c2DiscDb 0 = true ∧ discountFires c2DiscDb 200 = false ∧
    (∀ n m : ℤ, churnRiskFires c2RampDb n = churnRiskFires c2RampDb m) :=
  ⟨by decide, by decide, by decide, by decide, fun _ _ => rfl⟩

/-! ## C3 - zero denominators in metric ratios -/

/-- C3 counterexample: on the empty dataset (no closed deals, no recent
won deals, zero historical monthly revenue) the win rate and the coverage
multiple are 0 as claimed, but the discount rate is NULL - not 0 - and is
merely treated as a non-firing condition by the alert rule. -/
theorem c3_counterexample :
    winRateMetric [] = 0 ∧ pipelineHealth [] = 0 ∧
    discountRateSql [] 0 = none ∧ discountRateSql [] 0 ≠ some 0 := by
  refine ⟨?_, ?_, ?_, ?_⟩ <;> decide

/-- C3 (amended): with no closed deals the win rate is 0; with a
nonpositive monthly quota the coverage multiple is 0; with no won deals in
the 90-day window the discount rate is NULL and the detector treats the
NULL as "do not fire".  None of the three computations can raise: the
divisions are guarded (SQL NULLIF / Python conditional expressions). -/
theorem c3_theorem (db : List Row) (now : ℤ) :
    ((closedRows db).length = 0 → winRateMetric db = 0) ∧
    (¬ 0 < monthlyQuota db → pipelineHealth db = 0) ∧
    ((recentWonRows db now).length = 0 →
      discountRateSql db now = none ∧ discountFires db now = false) := by
  refine ⟨?_, ?_, ?_⟩
  · intro h
    simp [winRateMetric, sqlWinRate, h, pyRound1]
  · intro h
    simp [pipelineHealth, if_neg h, pyRound1]
  · intro h
    have h2 : discountRateSql db now = none := by
      simp [discountRateSql, h]
    exact ⟨h2, by simp [discountFires, h2]⟩

/-- C3 witness: the amended statement applied to the empty dataset. -/
theorem c3_witness :
    winRateMetric [] = 0 ∧ pipelineHealth [] = 0 ∧
    (discountRateSql [] 0 = none ∧ discountFires [] 0 = false) :=
  ⟨(c3_theorem [] 0).1 (by decide), (c3_theorem [] 0).2.1 (by decide),
   (c3_theorem [] 0).2.2 (by decide)⟩

/-! ## C4 - insufficient data must not fire alerts -/

/-- A dataset with one open deal and no won deals: the rep-concentration
rule has zero qualifying reps. -/
def c4db : List Row :=
  [{ opportunity_id := "O1", sales_agent := "A", product := "P", account := none,
     deal_stage := "Engaging", engage_date := some 0, close_date := none,
     close_value := none }]

/-- C4: with zero reps holding won deals the rep-concentration rule FIRES
(the guarded percentage defaults to 0, which is below the 40 threshold),
instead of silently not firing as the claim requires. -/
theorem c4_theorem : repConcentrationFires c4db = true := by decide

/-! ## C5 - investigator totality on the 10 known tags -/

/-- A dataset with three reps holding open deals; Alice and Bob also have
closed deals (two qualifying reps), while Carol - exactly the state the
admin hire button creates - has only open deals and hence a NULL win
rate. -/
def c5db : List Row :=
  [{ opportunity_id := "a1", sales_agent := "Alice", product := "P", account := none,
     deal_stage := "Engaging", engage_date := some 1, close_date := none,
     close_value := none },
   { opportunity_id := "a2", sales_agent := "Alice", product := "P", account := none,
     deal_stage := "Won", engage_date := some 1, close_date := some 50,
     close_value := some 100 },
   { opportunity_id := "b1", sales_agent := "Bob", product := "P", account := none,
     deal_stage := "Engaging", engage_date := some 1, close_date := none,
     close_value := none },
   { opportunity_id := "b2", sales_agent := "Bob", product := "P", account := none,
     deal_stage := "Lost", engage_date := some 1, close_date := some 40,
     close_value := none },
   { opportunity_id := "c1", sales_agent := "Carol", product := "P", account := none,
     deal_stage := "Engaging", engage_date := some 1, close_date := none,
     close_value := none }]

/-- C5: on c5db - which has at least 2 qualifying reps - the
territory_imbalance investigation does not return an Investigation at all:
formatting Carol's NULL win rate raises TypeError. -/
theorem c5_theorem : investigateTerritory c5db = Except.error fmtNoneErr := by rfl

/-! ## C6 - the demo-mode keyword router -/

/-- Dataset on which the monthly-revenue query is empty but the revenue
query succeeds: one Won deal without a close date. -/
def c6db : List Row :=
  [{ opportunity_id := "W1", sales_agent := "A", product := "P", account := none,
     deal_stage := "Won", engage_date := some 0, close_date := none,
     close_value := some 100 }]

/-- Witness dataset with one won and one lost deal. -/
def c6wdb : List Row :=
  [{ opportunity_id := "W1", sales_agent := "A", product := "P", account := none,
     deal_stage := "Won", engage_date := some 0, close_date := some 10,
     close_value := some 5 },
   { opportunity_id := "L1", sales_agent := "A", product := "P", account := none,
     deal_stage := "Lost", engage_date := some 0, close_date := some 8,
     close_value := none }]

/-- C6 counterexample: for the prompt "monthly revenue" on c6db the first
matching predicate in source order is the monthly-revenue one (no earlier
predicate matches), yet its handler returns no formatted answer (its query
is empty) and the router falls through and returns the later revenue
handler's answer - so the router does NOT return the first matching
handler's formatted answer as the claim states. -/
theorem c6_counterexample :
    monthlyPred (lowerStr ("monthly revenue")) = true ∧
    dealCountPred (lowerStr ("monthly revenue")) = false ∧
    winRatePred (lowerStr ("monthly revenue")) = false ∧
    lostPred (lowerStr ("monthly revenue")) = false ∧
    timeToClosePred (lowerStr ("monthly revenue")) = false ∧
    monthlyRevenueHandler c6db = Except.ok none ∧
    get_demo_response ("monthly revenue") c6db =
      Except.ok (("Total revenue is **$100** from **1 won deals**.")) := by
  refine ⟨by decide, by decide, by decide, by decide, by decide, by rfl, by rfl⟩

/-- When no predicate matches, the router walks off the table and returns
the help message. -/
lemma routeDemo_no_match
    (entries : List ((String → Bool) × (List Row → Except String (Option String))))
    (lp : String) (db : List Row)
    (h : (entries.map (fun e => e.1 lp)).any id = false) :
    routeDemo entries lp db = Except.ok helpMessage := by
  induction entries with
  | nil => rfl
  | cons e rest ih =>
    simp only [List.map_cons, List.any_cons, Bool.or_eq_false_iff, id_eq] at h
    simp only [routeDemo, h.1, Bool.false_eq_true, if_false]
    exact ih h.2

/-- C6 (amended): the router lower-cases the prompt and walks the
predicate table in source order, returning the first matching handler
whose query yields rows (a match with an empty result falls through to
later predicates).  A prompt containing both "win rate" and "pipeline"
that does not match the sole earlier predicate (deal count) resolves to
the win-rate answer whenever the dataset has a closed deal; a prompt
matching no predicate yields the fixed help message. -/
theorem c6_theorem (p : String) (db : List Row) :
    (winRatePred (lowerStr p) = true → dealCountPred (lowerStr p) = false →
      containsSub (lowerStr p) ("pipeline") = true →
      (closedRows db).length ≠ 0 →
      get_demo_response p db = Except.ok (winRateMsg db)) ∧
    (anyDemoPredMatches (lowerStr p) = false →
      get_demo_response p db = Except.ok helpMessage) := by
  constructor
  · intro h1 h2 _h3 h4
    simp only [get_demo_response, demoEntries, routeDemo, h1, h2,
      Bool.false_eq_true, if_false, if_true, winRateHandler, if_neg h4]
  · intro h
    simp only [anyDemoPredMatches] at h
    exact routeDemo_no_match demoEntries _ db h

/-- C6 witness: the amended routing rules applied to the concrete prompts
"win rate and pipeline" (on c6wdb) and "hello" (on the empty table). -/
theorem c6_witness :
    get_demo_response ("win rate and pipeline") c6wdb = Except.ok (winRateMsg c6wdb) ∧
    get_demo_response ("hello") [] = Except.ok helpMessage :=
  ⟨(c6_theorem ("win rate and pipeline") c6wdb).1 (by decide) (by decide)
      (by decide) (by decide),
   (c6_theorem ("hello") []).2 (by decide)⟩

/-! ## C7 - the close-N-deals admin action -/

/-- Ten open deals engaged on days 1..10 (distinct engage dates, so every
ORDER BY is unambiguous). -/
def c7db : List Row :=
  (List.range 10).map (fun i =>
    { opportunity_id := ("D") ++ toString i, sales_agent := "A", product := "P",
      account := none, deal_stage := "Engaging", engage_date := some ((i : ℤ) + 1),
      close_date := none, close_value := none : Row })

/-- C7: closing N = 10 deals out of exactly 10 open ones moves only 8 rows
to Won and leaves 2 open: the median-age selection window (ranks 4-6 of
10) lies entirely inside the newest-70 percent window (ranks 1-7), so two
of the ten UPDATE statements hit already-selected rows. -/
theorem c7_theorem :
    openDealCount c7db = 10 ∧
    openDealCount (closeDealsAction c7db 10 2361) = 2 ∧
    (wonRows (closeDealsAction c7db 10 2361)).length = 8 := by
  refine ⟨by decide, by decide, by decide⟩

/-! ## C8 - the five-question live-mode cap -/

/-- C8: from a fresh session the question counter never exceeds 5, the
metered external responder is invoked at most 5 times over any event
sequence, and from any state with an exhausted counter no further events
ever invoke it (neither the chat path nor the recommendations path). -/
theorem c8_theorem (evts : List UserEvent) (b : Bool) (evts2 : List UserEvent) :
    (runSession initSession evts).1.liveQuestions ≤ 5 ∧
    (runSession initSession evts).2 ≤ 5 ∧
    (runSession { demoMode := b, liveQuestions := 5 } evts2).2 = 0 := by
  refine ⟨runSession_le evts initSession (by decide), ?_, ?_⟩
  · have h := runSession_count evts initSession
    rw [show initSession.liveQuestions = 0 from rfl] at h
    have h2 := runSession_le evts initSession (by decide)
    omega
  · have h := runSession_count evts2 { demoMode := b, liveQuestions := 5 }
    rw [show ({ demoMode := b, liveQuestions := 5 } : Session).liveQuestions = 5 from rfl] at h
    have h2 := runSession_le evts2 { demoMode := b, liveQuestions := 5 } (by simp)
    omega

/-! ## C9 - the close-date/close-value population invariant -/

/-- The claim's row invariant: close date and close value are each
populated exactly when the stage is Won or Lost. -/
def rowInvariantClaim (r : Row) : Prop :=
  (r.close_date ≠ none ↔ (r.deal_stage = "Won" ∨ r.deal_stage = "Lost")) ∧
  (r.close_value ≠ none ↔ (r.deal_stage = "Won" ∨ r.deal_stage = "Lost"))

instance (r : Row) : Decidable (rowInvariantClaim r) := by
  unfold rowInvariantClaim
  infer_instance

/-- The close-date half of the invariant, which the admin mutations do
maintain. -/
def closeDateMatchesStage (r : Row) : Prop :=
  r.close_date ≠ none ↔ (r.deal_stage = "Won" ∨ r.deal_stage = "Lost")

instance (r : Row) : Decidable (closeDateMatchesStage r) := by
  unfold closeDateMatchesStage
  infer_instance

/-- A one-row table whose single Won deal fixes the reference date. -/
def c9db : List Row :=
  [{ opportunity_id := "W1", sales_agent := "A", product := "GTX", account := none,
     deal_stage := "Won", engage_date := some 0, close_date := some 50,
     close_value := some 10 }]

/-- C9 counterexample: the add-opportunities action inserts an Engaging
row whose close_value IS populated (the average deal size), violating the
claimed if-and-only-if; the CSV loader likewise writes close_value 0 - not
NULL - for an Engaging record with a missing value. -/
theorem c9_counterexample :
    (addOppsAction c9db [("N1", "A", "GTX")] 2361).getLast? =
      some { opportunity_id := "N1", sales_agent := "A", product := "GTX",
             account := some ("New Opportunity"), deal_stage := "Engaging",
             engage_date := some 50, close_date := none, close_value := some 2361 } ∧
    ¬ rowInvariantClaim
        { opportunity_id := "N1", sales_agent := "A", product := "GTX",
          account := some ("New Opportunity"), deal_stage := "Engaging",
          engage_date := some 50, close_date := none, close_value := some 2361 } ∧
    (loadRow { opportunity_id := "c0", sales_agent := "A", product := "GTX",
               account := none, deal_stage := "Engaging", engage_date := some 1,
               close_date := none, close_value := none }).close_value = some 0 := by
  refine ⟨by decide, by decide, by decide⟩

/-- Rows after the mark-lost loop: pre-existing, or stamped Lost with the
(preserved) maximum close date. -/
lemma markLost_foldl_rows (ids : List String) (db : List Row) (m : ℤ)
    (hm : maxCloseDate db = some m) :
    ∀ r ∈ ids.foldl markLostStep db, r ∈ db ∨
      (r.deal_stage = "Lost" ∧ r.close_date = some m) := by
  induction ids generalizing db with
  | nil => intro r hr; exact Or.inl hr
  | cons id ids ih =>
    intro r hr
    rw [List.foldl_cons] at hr
    have hm1 : maxCloseDate (markLostStep db id) = some m := by
      rw [maxCD_markLostStep]; exact hm
    rcases ih (markLostStep db id) hm1 r hr with h | h
    · simp only [markLostStep, List.mem_map] at h
      obtain ⟨r0, hr0, rfl⟩ := h
      by_cases hc : (r0.opportunity_id == id) = true
      · right
        simp only [hc, if_true]
        refine ⟨?_, ?_⟩ <;> simp [hm]
      · left
        simp only [hc, Bool.false_eq_true, if_false]
        exact hr0
    · exact Or.inr h

/-- C9 (amended): every row written by the four admin mutations satisfies
the close-DATE half of the invariant - close date populated exactly when
the stage is Won or Lost - provided the table already holds some close
date (needed for mark-lost, whose stamp is MAX(close_date)); the
close-VALUE half does not hold: the loader always populates close_value
(0 when the CSV cell is missing) and the insert actions populate it on
Engaging rows. -/
theorem c9_theorem (db : List Row) (n : ℕ) (avg : ℚ)
    (choices : List (String × String × String)) (hchoices : List (String × String))
    (hmax : maxCloseDate db ≠ none) :
    (∀ r ∈ closeDealsAction db n avg, r ∈ db ∨ closeDateMatchesStage r) ∧
    (∀ r ∈ markLostAction db n, r ∈ db ∨ closeDateMatchesStage r) ∧
    (∀ r ∈ addOppsAction db choices avg, r ∈ db ∨ closeDateMatchesStage r) ∧
    (∀ r ∈ hireAgentAction db hchoices avg, r ∈ db ∨ closeDateMatchesStage r) ∧
    (∀ rec : CsvRecord, (loadRow rec).close_value ≠ none) := by
  obtain ⟨m, hm⟩ := Option.ne_none_iff_exists'.mp hmax
  refine ⟨?_, ?_, ?_, ?_, ?_⟩
  · intro r hr
    simp only [closeDealsAction, List.mem_map] at hr
    obtain ⟨r0, hr0, rfl⟩ := hr
    by_cases hc : ((closeDealsSelect db n).contains r0.opportunity_id) = true
    · right
      simp only [hc, if_true]
      unfold closeDateMatchesStage
      simp
    · left
      simp only [hc, Bool.false_eq_true, if_false]
      exact hr0
  · intro r hr
    rw [markLostAction] at hr
    rcases markLost_foldl_rows (markLostSelect db n) db m hm r hr with h | h
    · exact Or.inl h
    · right
      unfold closeDateMatchesStage
      simp [h.1, h.2]
  · intro r hr
    simp only [addOppsAction, List.mem_append, List.mem_map] at hr
    rcases hr with h | h
    · exact Or.inl h
    · right
      obtain ⟨c, _, rfl⟩ := h
      unfold closeDateMatchesStage newOppRow
      simp
  · intro r hr
    simp only [hireAgentAction, List.mem_append, List.mem_map] at hr
    rcases hr with h | h
    · exact Or.inl h
    · right
      obtain ⟨c, _, rfl⟩ := h
      unfold closeDateMatchesStage
      simp
  · intro rec
    simp [loadRow]

/-- C9 witness: the amended invariant applied to c9db with one update or
insertion per mutation. -/
theorem c9_witness :
    (∀ r ∈ closeDealsAction c9db 1 2361, r ∈ c9db ∨ closeDateMatchesStage r) ∧
    (∀ r ∈ markLostAction c9db 1, r ∈ c9db ∨ closeDateMatchesStage r) ∧
    (∀ r ∈ addOppsAction c9db [("N1", "A", "GTX")] 2361,
      r ∈ c9db ∨ closeDateMatchesStage r) ∧
    (∀ r ∈ hireAgentAction c9db [("H1", "GTX")] 2361,
      r ∈ c9db ∨ closeDateMatchesStage r) ∧
    (∀ rec : CsvRecord, (loadRow rec).close_value ≠ none) :=
  c9_theorem c9db 1 2361 [("N1", "A", "GTX")] [("H1", "GTX")] (by decide)

/-! ## C10 - admin mutations preserve the reference date -/

/-- Witness dataset for C10. -/
def c10wdb : List Row :=
  [{ opportunity_id := "W1", sales_agent := "A", product := "P", account := none,
     deal_stage := "Won", engage_date := some 0, close_date := some 50,
     close_value := some 10 },
   { opportunity_id := "E1", sales_agent := "A", product := "P", account := none,
     deal_stage := "Engaging", engage_date := some 20, close_date := none,
     close_value := none }]

/-- C10: provided some close date exists beforehand, each admin mutation
leaves MAX(close_date) - the reference date - unchanged: closes and losses
stamp the pre-existing maximum as the new close date, and insertions carry
a NULL close date. -/
theorem c10_theorem (db : List Row) (n : ℕ) (avg : ℚ)
    (choices : List (String × String × String)) (hchoices : List (String × String))
    (hmax : maxCloseDate db ≠ none) :
    maxCloseDate (closeDealsAction db n avg) = maxCloseDate db ∧
    maxCloseDate (markLostAction db n) = maxCloseDate db ∧
    maxCloseDate (addOppsAction db choices avg) = maxCloseDate db ∧
    maxCloseDate (hireAgentAction db hchoices avg) = maxCloseDate db := by
  obtain ⟨m, hm⟩ := Option.ne_none_iff_exists'.mp hmax
  refine ⟨?_, ?_, ?_, ?_⟩
  · have href : referenceDate db = m := by simp [referenceDate, hm]
    have he : closeDealsAction db n avg = db.map (fun r =>
        if (closeDealsSelect db n).contains r.opportunity_id then
          { r with deal_stage := "Won", close_value := some avg,
                   close_date := some (referenceDate db) }
        else r) := rfl
    rw [hm, he]
    apply maxCD_map_stamp db m _ hm
    intro r _
    by_cases hc : ((closeDealsSelect db n).contains r.opportunity_id) = true
    · right
      simp only [hc, if_true]
      rw [href]
    · left
      simp only [hc, Bool.false_eq_true, if_false]
  · rw [markLostAction, maxCD_markLost_foldl]
  · unfold addOppsAction
    apply maxCD_append_none
    intro r hr
    simp only [List.mem_map] at hr
    obtain ⟨c, _, rfl⟩ := hr
    rfl
  · unfold hireAgentAction
    apply maxCD_append_none
    intro r hr
    simp only [List.mem_map] at hr
    obtain ⟨c, _, rfl⟩ := hr
    rfl

/-- C10 witness: reference-date preservation on the concrete table c10wdb
with one row touched per mutation. -/
theorem c10_witness :
    maxCloseDate (closeDealsAction c10wdb 1 2361) = maxCloseDate c10wdb ∧
    maxCloseDate (markLostAction c10wdb 1) = maxCloseDate c10wdb ∧
    maxCloseDate (addOppsAction c10wdb [("N1", "A", "P")] 2361) = maxCloseDate c10wdb ∧
    maxCloseDate (hireAgentAction c10wdb [("H1", "P")] 2361) = maxCloseDate c10wdb :=
  c10_theorem c10wdb 1 2361 [("N1", "A", "P")] [("H1", "P")] (by decide)
